import Mathlib

/-!
Shallow embedding of the core of the Destress2Impress repository:
the breathing classifier with auto-calibration (`breathing_detector.py`)
and the breathing-controlled flappy-bird simulation (`flappy_bird_game.py`).

Numeric conventions: Python floats are modelled as exact rationals (ℚ);
the integer-typed fields of the source (radii, widths, gap heights) are
also carried as ℚ since Python mixes them freely in float arithmetic.
`time.time()` values are passed in explicitly as rational timestamps.
`random.randint` draws are passed in explicitly as parameters.
-/

/-! ### Calibration (`breathing_detector.py`, `_auto_calibrate`) -/

/-- The calibration fields of `BreathingDetector` that `_auto_calibrate`
writes: `baseline_volume`, `inhale_threshold`, `exhale_threshold`,
`is_calibrated`. -/
structure CalibProfile where
  baseline_volume : ℚ
  inhale_threshold : ℚ
  exhale_threshold : ℚ
  is_calibrated : Bool
deriving DecidableEq

/-- The filter `volumes[np.isfinite(volumes) & (volumes >= 0)]`.
Rationals are always finite, so only the sign test remains; the spec's
"finite, non-negative" values are exactly the non-negative rationals. -/
def valid_of (samples : List ℚ) : List ℚ :=
  samples.filter (fun v => decide (0 ≤ v))

/-- Embeds `np.mean`: arithmetic mean (0 on the empty list, as a convention;
the source never takes the mean of an empty array on the paths modelled). -/
def npMean (l : List ℚ) : ℚ := l.sum / l.length

/-- Embeds `np.median`: sort ascending; middle element for odd length, average of
the two middle elements for even length. -/
def npMedian (l : List ℚ) : ℚ :=
  let s := l.insertionSort (· ≤ ·)
  if l.length % 2 = 1 then s.getD (l.length / 2) 0
  else (s.getD (l.length / 2 - 1) 0 + s.getD (l.length / 2) 0) / 2

/-- Embeds the `np.var`-style population variance (the square of `np.std`). -/
def npVariance (l : List ℚ) : ℚ :=
  (l.map (fun v => (v - npMean l) ^ 2)).sum / l.length

/-- Embeds `_auto_calibrate(self)`.  Input: the detector's `sensitivity` and
`calibration_samples` buffer.  `np.std(valid_volumes)` is an irrational
square root in general, so it is passed in as the parameter `σ`; theorems
about this function constrain `σ` by `0 ≤ σ` (and, where relevant,
`σ ^ 2 = npVariance (valid_of samples)`), which is exactly what
characterises the population standard deviation.  Returns `none` for the
early `return` when the buffer holds fewer than 50 samples (the detector's
calibration state is then unchanged), otherwise `some` profile. -/
def auto_calibrate (sensitivity : ℚ) (calibration_samples : List ℚ) (σ : ℚ) :
    Option CalibProfile :=
  if calibration_samples.length < 50 then none
  else
    let valid := valid_of calibration_samples
    if valid.length < 10 then some ⟨100, 150, 50, true⟩
    else
      let b0 := npMedian valid
      let degenerate := b0 = 0 ∨ σ = 0
      let b := if degenerate then max 100 (npMean valid) else b0
      let s := if degenerate then max 50 (b * (1/2)) else σ
      let inhale0 := b + s * sensitivity * (12/10)
      let exhale0 := max (b * (3/10)) (b - s * sensitivity * (8/10))
      let separation := |inhale0 - exhale0|
      let minSep := max 20 (b * (4/10))
      if separation < minSep then
        some ⟨b, b + minSep / 2, max 1 (b - minSep / 2), true⟩
      else
        some ⟨b, inhale0, exhale0, true⟩

/-! ### Breathing classification (`breathing_detector.py`, `_detect_breathing`) -/

/-- The detector constant `min_state_duration = 0.3`. -/
def min_state_duration : ℚ := 3/10

def inhale_label : String := "inhale"
def exhale_label : String := "exhale"
def neutral_label : String := "neutral"

/-- The classifier state `_detect_breathing` reads and writes:
`breathing_state` and `last_state_change`. -/
structure DetectorState where
  breathing_state : String
  last_state_change : ℚ
deriving DecidableEq

/-- The `new_state` computed at the top of `_detect_breathing`:
above `inhale_threshold` → inhale; below `exhale_threshold` → exhale;
otherwise neutral once `min_state_duration` has elapsed, else the
current state is kept. -/
def target_state (it et : ℚ) (c : DetectorState) (volume now : ℚ) : String :=
  if volume > it then inhale_label
  else if volume < et then exhale_label
  else if now - c.last_state_change > min_state_duration then neutral_label
  else c.breathing_state

/-- Embeds `_detect_breathing(self, volume)` with `current_time = now`.
Returns the updated state and the callback invocation (if any):
the state changes only when the target differs from the current state and
more than `min_state_duration` has elapsed since the last change; the
callback fires only for a new state of inhale or exhale (the registered
callback is assumed non-None). -/
def detect_breathing (it et : ℚ) (c : DetectorState) (volume now : ℚ) :
    DetectorState × Option (String × ℚ) :=
  let ns := target_state it et c volume now
  if ns ≠ c.breathing_state ∧ now - c.last_state_change > min_state_duration then
    (⟨ns, now⟩, if ns = inhale_label ∨ ns = exhale_label then some (ns, volume) else none)
  else (c, none)

/-- Run `_detect_breathing` over a sequence of `(volume, timestamp)` inputs,
collecting the log of applied transitions as `(new state, time applied)`
pairs, in order. -/
def run_detect (it et : ℚ) (c : DetectorState) :
    List (ℚ × ℚ) → DetectorState × List (String × ℚ)
  | [] => (c, [])
  | (v, t) :: rest =>
    let r := detect_breathing it et c v t
    let rr := run_detect it et r.1 rest
    (rr.1, (if r.1 = c then [] else [(r.1.breathing_state, r.1.last_state_change)]) ++ rr.2)

/-! ### Game data model (`flappy_bird_game.py`) -/

/-- Embeds `@dataclass Bird` (radius is `int` in the source, carried as ℚ). -/
structure Bird where
  x : ℚ := 100
  y : ℚ := 250
  velocity_y : ℚ := 0
  radius : ℚ := 20
deriving DecidableEq

/-- Embeds `@dataclass Pipe` (`gap_height` and `width` are `int` in the source). -/
structure Pipe where
  x : ℚ
  gap_y : ℚ
  gap_height : ℚ := 120
  width : ℚ := 50
  passed : Bool := false
deriving DecidableEq

def GAME_WIDTH : ℚ := 800
def GAME_HEIGHT : ℚ := 600
def BREATHING_FORCE : ℚ := -8
def EXHALE_FORCE : ℚ := 4
def MAX_VELOCITY : ℚ := 10
def PIPE_SPAWN_DISTANCE : ℚ := 300
def BREATHING_FORCE_DURATION : ℚ := 3/10

/-- The mutable state of `FlappyBirdGame`.  `GRAVITY` and `PIPE_SPEED` are
fields because `adjust_difficulty` reassigns them; the remaining
capitalised constants are fixed.  `score`/`high_score` are Python ints
that are only ever incremented, carried as ℕ. -/
structure GameState where
  bird : Bird
  pipes : List Pipe
  gravity : ℚ
  pipe_speed : ℚ
  is_running : Bool
  is_paused : Bool
  score : ℕ
  high_score : ℕ
  game_over : Bool
  current_breathing : String
  breathing_force_active : Bool
  breathing_force_timer : ℚ
deriving DecidableEq

/-- The state built by `FlappyBirdGame.__init__` (timer fields start at 0). -/
def initial_game : GameState :=
  { bird := {}
    pipes := []
    gravity := 1/2
    pipe_speed := 3
    is_running := false
    is_paused := false
    score := 0
    high_score := 0
    game_over := false
    current_breathing := neutral_label
    breathing_force_active := false
    breathing_force_timer := 0 }

/-- Embeds `_game_over(self)`: set the flag and fold the score into the high score. -/
def apply_game_over (s : GameState) : GameState :=
  { s with game_over := true
           high_score := if s.score > s.high_score then s.score else s.high_score }

/-- Embeds `on_breathing_input(self, breath_type, volume)` at wall-clock time `now`.
Ignored when the game is over or paused; otherwise records the label and
applies the capped impulse (`volume` is accepted but unused, as in the
source). -/
def on_breathing_input (breath_type : String) (volume now : ℚ) (s : GameState) :
    GameState :=
  if s.game_over || s.is_paused then s
  else
    let s1 := { s with current_breathing := breath_type }
    if breath_type = inhale_label then
      { s1 with bird := { s1.bird with
                  velocity_y := max BREATHING_FORCE (s1.bird.velocity_y + BREATHING_FORCE) }
                breathing_force_active := true
                breathing_force_timer := now }
    else if breath_type = exhale_label then
      { s1 with bird := { s1.bird with
                  velocity_y := min EXHALE_FORCE (s1.bird.velocity_y + EXHALE_FORCE) }
                breathing_force_active := true
                breathing_force_timer := now }
    else s1

/-- The impulse-decay check inside `_update_bird_physics`: once the
breathing force has been active longer than `BREATHING_FORCE_DURATION`,
clear the flag and reset the displayed label (velocity untouched). -/
def decay_impulse (now : ℚ) (s : GameState) : GameState :=
  if s.breathing_force_active ∧
      now - s.breathing_force_timer > BREATHING_FORCE_DURATION then
    { s with breathing_force_active := false, current_breathing := neutral_label }
  else s

/-- Embeds `_update_bird_physics(self, delta_time)` at wall-clock time `now`
(`delta_time` is unused by the source body): gravity, impulse-flag decay,
velocity clamp, position update, and the screen-bound clamps, where only
the bottom bound triggers `_game_over`.  (`decay_impulse` does not touch
the bird, gravity, or velocity, so reading them from `s1` matches the
source exactly.) -/
def update_bird_physics (now : ℚ) (s : GameState) : GameState :=
  let s1 := decay_impulse now s
  let v2 := max (-MAX_VELOCITY) (min MAX_VELOCITY (s1.bird.velocity_y + s1.gravity))
  let y1 := s1.bird.y + v2
  if y1 < s1.bird.radius then
    { s1 with bird := { s1.bird with y := s1.bird.radius, velocity_y := 0 } }
  else if y1 > GAME_HEIGHT - s1.bird.radius then
    apply_game_over
      { s1 with bird := { s1.bird with y := GAME_HEIGHT - s1.bird.radius, velocity_y := 0 } }
  else
    { s1 with bird := { s1.bird with y := y1, velocity_y := v2 } }

/-- Embeds `_generate_pipe_at_position(self, x)` with the `random.randint(100, 400)`
draw supplied as `gap`. -/
def generate_pipe_at_position (x gap : ℚ) (s : GameState) : GameState :=
  { s with pipes := s.pipes ++ [{ x := x, gap_y := gap }] }

/-- Embeds `_update_pipes(self, delta_time)`: advance every pipe by `PIPE_SPEED`,
drop pipes fully off screen, then spawn a new pipe at the right edge when
the track is empty or the last pipe has moved `PIPE_SPAWN_DISTANCE` in. -/
def update_pipes (gap : ℚ) (s : GameState) : GameState :=
  let moved := s.pipes.map (fun p => { p with x := p.x - s.pipe_speed })
  let kept := moved.filter (fun p => !decide (p.x + p.width < 0))
  let s1 := { s with pipes := kept }
  match kept.getLast? with
  | none => generate_pipe_at_position GAME_WIDTH gap s1
  | some last =>
    if last.x < GAME_WIDTH - PIPE_SPAWN_DISTANCE then
      generate_pipe_at_position GAME_WIDTH gap s1
    else s1

/-- Does the bird's bounding box overlap pipe `p` horizontally while its
vertical extent leaves the gap?  (The body of the collision test in
`_check_collisions`.) -/
def pipe_collides (b : Bird) (p : Pipe) : Bool :=
  decide (b.x + b.radius > p.x) && decide (b.x - b.radius < p.x + p.width) &&
    (decide (b.y - b.radius < p.gap_y) || decide (b.y + b.radius > p.gap_y + p.gap_height))

/-- Embeds `_check_collisions(self)`: `_game_over` at the first colliding pipe
(returning early is equivalent to testing whether any pipe collides). -/
def check_collisions (s : GameState) : GameState :=
  if s.pipes.any (pipe_collides s.bird) then apply_game_over s else s

/-- The loop body of `_update_score`: walk the pipes, marking each unpassed
pipe whose right edge is strictly left of the bird and counting one score
increment for it. -/
def score_pipes (bx : ℚ) : List Pipe → List Pipe × ℕ
  | [] => ([], 0)
  | p :: rest =>
    let r := score_pipes bx rest
    if !p.passed && decide (p.x + p.width < bx) then
      ({ p with passed := true } :: r.1, r.2 + 1)
    else (p :: r.1, r.2)

/-- Embeds `_update_score(self)`. -/
def update_score (s : GameState) : GameState :=
  let r := score_pipes s.bird.x s.pipes
  { s with pipes := r.1, score := s.score + r.2 }

/-- Embeds `_update_game(self, delta_time)` at wall-clock time `now` — one game
tick: physics, pipes, collisions, scoring (the loop only calls it in the
running, unpaused, not-game-over state). -/
def update_game (now gap : ℚ) (s : GameState) : GameState :=
  update_score (check_collisions (update_pipes gap (update_bird_physics now s)))

/-- Embeds `_generate_initial_pipes(self)`: three pipes at `GAME_WIDTH + i*300`,
with the three random gap draws supplied. -/
def generate_initial_pipes (g1 g2 g3 : ℚ) (s : GameState) : GameState :=
  generate_pipe_at_position (GAME_WIDTH + 2 * PIPE_SPAWN_DISTANCE) g3
    (generate_pipe_at_position (GAME_WIDTH + PIPE_SPAWN_DISTANCE) g2
      (generate_pipe_at_position GAME_WIDTH g1 s))

/-- Embeds `reset_game(self)` at wall-clock time `now` (`start_time` is not part of
the modelled state; the high score, pause flag, difficulty settings and
displayed breathing label are deliberately not reset by the source). -/
def reset_game (now g1 g2 g3 : ℚ) (s : GameState) : GameState :=
  generate_initial_pipes g1 g2 g3
    { s with bird := {}
             pipes := []
             score := 0
             game_over := false
             breathing_force_active := false
             breathing_force_timer := 0 }

/-! ### Helper lemmas -/

lemma decay_impulse_bird (now : ℚ) (s : GameState) :
    (decay_impulse now s).bird = s.bird := by
  unfold decay_impulse; split <;> rfl

lemma decay_impulse_gravity (now : ℚ) (s : GameState) :
    (decay_impulse now s).gravity = s.gravity := by
  unfold decay_impulse; split <;> rfl

lemma decay_impulse_score (now : ℚ) (s : GameState) :
    (decay_impulse now s).score = s.score := by
  unfold decay_impulse; split <;> rfl

lemma decay_impulse_game_over (now : ℚ) (s : GameState) :
    (decay_impulse now s).game_over = s.game_over := by
  unfold decay_impulse; split <;> rfl

lemma decay_impulse_pipes (now : ℚ) (s : GameState) :
    (decay_impulse now s).pipes = s.pipes := by
  unfold decay_impulse; split <;> rfl

lemma apply_game_over_bird (s : GameState) :
    (apply_game_over s).bird = s.bird := rfl

lemma apply_game_over_score (s : GameState) :
    (apply_game_over s).score = s.score := rfl

lemma update_pipes_bird (gap : ℚ) (s : GameState) :
    (update_pipes gap s).bird = s.bird := by
  unfold update_pipes
  cases h : ((s.pipes.map (fun p => { p with x := p.x - s.pipe_speed })).filter
      (fun p => !decide (p.x + p.width < 0))).getLast? <;>
    simp only [h] <;> (try split) <;> simp [generate_pipe_at_position]

lemma update_pipes_score (gap : ℚ) (s : GameState) :
    (update_pipes gap s).score = s.score := by
  unfold update_pipes
  cases h : ((s.pipes.map (fun p => { p with x := p.x - s.pipe_speed })).filter
      (fun p => !decide (p.x + p.width < 0))).getLast? <;>
    simp only [h] <;> (try split) <;> simp [generate_pipe_at_position]

lemma update_pipes_game_over (gap : ℚ) (s : GameState) :
    (update_pipes gap s).game_over = s.game_over := by
  unfold update_pipes
  cases h : ((s.pipes.map (fun p => { p with x := p.x - s.pipe_speed })).filter
      (fun p => !decide (p.x + p.width < 0))).getLast? <;>
    simp only [h] <;> (try split) <;> simp [generate_pipe_at_position]

lemma check_collisions_bird (s : GameState) :
    (check_collisions s).bird = s.bird := by
  unfold check_collisions; split <;> rfl

lemma check_collisions_score (s : GameState) :
    (check_collisions s).score = s.score := by
  unfold check_collisions; split <;> rfl

lemma check_collisions_game_over (s : GameState) :
    (check_collisions s).game_over =
      (s.game_over || s.pipes.any (pipe_collides s.bird)) := by
  unfold check_collisions
  split <;> rename_i h <;> simp [h, apply_game_over]

lemma update_score_bird (s : GameState) :
    (update_score s).bird = s.bird := rfl

lemma update_score_game_over (s : GameState) :
    (update_score s).game_over = s.game_over := rfl

lemma update_game_bird (now gap : ℚ) (s : GameState) :
    (update_game now gap s).bird = (update_bird_physics now s).bird := by
  unfold update_game
  rw [update_score_bird, check_collisions_bird, update_pipes_bird]

lemma update_bird_physics_bird (now : ℚ) (s : GameState) :
    (update_bird_physics now s).bird =
      (let v2 := max (-MAX_VELOCITY) (min MAX_VELOCITY (s.bird.velocity_y + s.gravity))
       let y1 := s.bird.y + v2
       if y1 < s.bird.radius then { s.bird with y := s.bird.radius, velocity_y := 0 }
       else if y1 > GAME_HEIGHT - s.bird.radius then
         { s.bird with y := GAME_HEIGHT - s.bird.radius, velocity_y := 0 }
       else { s.bird with y := y1, velocity_y := v2 }) := by
  simp only [update_bird_physics]
  rw [decay_impulse_bird, decay_impulse_gravity]
  by_cases h1 : s.bird.y + max (-MAX_VELOCITY) (min MAX_VELOCITY (s.bird.velocity_y + s.gravity)) <
      s.bird.radius
  · simp [h1]
  · by_cases h2 : s.bird.y + max (-MAX_VELOCITY) (min MAX_VELOCITY (s.bird.velocity_y + s.gravity)) >
        GAME_HEIGHT - s.bird.radius
    · simp [h1, h2, apply_game_over]
    · simp [h1, h2]

lemma update_bird_physics_score (now : ℚ) (s : GameState) :
    (update_bird_physics now s).score = s.score := by
  simp only [update_bird_physics]
  split
  · simp [decay_impulse_score]
  · split <;> simp [apply_game_over, decay_impulse_score]

lemma update_bird_physics_pipes (now : ℚ) (s : GameState) :
    (update_bird_physics now s).pipes = s.pipes := by
  simp only [update_bird_physics]
  split
  · simp [decay_impulse_pipes]
  · split <;> simp [apply_game_over, decay_impulse_pipes]

/-- C2: after every game tick, the bird's velocity lies in
`[-MAX_VELOCITY, MAX_VELOCITY]` and its vertical position lies in
`[radius, GAME_HEIGHT - radius]` (for any starting state whose radius fits
the screen, hence for every sequence of ticks and breathing inputs). -/
theorem tick_bird_bounds (now gap : ℚ) (s : GameState)
    (hr : 2 * s.bird.radius ≤ GAME_HEIGHT) :
    (-MAX_VELOCITY ≤ (update_game now gap s).bird.velocity_y ∧
      (update_game now gap s).bird.velocity_y ≤ MAX_VELOCITY) ∧
    ((update_game now gap s).bird.radius ≤ (update_game now gap s).bird.y ∧
      (update_game now gap s).bird.y ≤ GAME_HEIGHT - (update_game now gap s).bird.radius) := by
  rw [update_game_bird, update_bird_physics_bird]
  have hM : (0 : ℚ) < MAX_VELOCITY := by norm_num [MAX_VELOCITY]
  by_cases h1 : s.bird.y + max (-MAX_VELOCITY) (min MAX_VELOCITY (s.bird.velocity_y + s.gravity)) <
      s.bird.radius
  · simp only [h1, if_pos]
    refine ⟨⟨by linarith, by linarith⟩, le_refl _, by linarith⟩
  · by_cases h2 : s.bird.y + max (-MAX_VELOCITY) (min MAX_VELOCITY (s.bird.velocity_y + s.gravity)) >
        GAME_HEIGHT - s.bird.radius
    · simp only [h1, h2, if_neg, if_pos, not_false_iff]
      refine ⟨⟨by linarith, by linarith⟩, by linarith, le_refl _⟩
    · simp only [h1, h2, if_neg, not_false_iff]
      push_neg at h1 h2
      refine ⟨⟨le_max_left _ _, max_le (by linarith) (min_le_left _ _)⟩, h1, h2⟩

/-- C2 witness: the bounds hold concretely after one tick from the freshly
constructed game. -/
theorem tick_bird_bounds_witness :
    (-MAX_VELOCITY ≤ (update_game 0 200 initial_game).bird.velocity_y ∧
      (update_game 0 200 initial_game).bird.velocity_y ≤ MAX_VELOCITY) ∧
    ((update_game 0 200 initial_game).bird.radius ≤ (update_game 0 200 initial_game).bird.y ∧
      (update_game 0 200 initial_game).bird.y ≤
        GAME_HEIGHT - (update_game 0 200 initial_game).bird.radius) :=
  tick_bird_bounds 0 200 initial_game (by norm_num [initial_game, GAME_HEIGHT])

/-- C8 (amended): a breathing input is ignored exactly when the game is
over or paused — the whole game state is left unchanged; the source does
not test `is_running`, so inputs sent in the idle state are applied. -/
theorem breathing_input_ignored_when_over_or_paused (bt : String) (v now : ℚ)
    (s : GameState) (h : s.game_over = true ∨ s.is_paused = true) :
    on_breathing_input bt v now s = s := by
  unfold on_breathing_input
  have hc : (s.game_over || s.is_paused) = true := by
    rcases h with h | h <;> simp [h]
  rw [if_pos hc]

/-- C8 witness: a breathing input while paused changes nothing. -/
theorem breathing_input_ignored_witness :
    on_breathing_input inhale_label 0 0 { initial_game with is_paused := true } =
      { initial_game with is_paused := true } :=
  breathing_input_ignored_when_over_or_paused inhale_label 0 0
    { initial_game with is_paused := true } (Or.inr rfl)

/-- C8 counterexample: in the idle state (game not running, not paused,
not over — i.e. before `start_game`), `on_breathing_input` is *not*
ignored: an inhale changes the bird's velocity to `BREATHING_FORCE`. -/
theorem breathing_input_not_ignored_when_idle :
    initial_game.is_running = false ∧ initial_game.is_paused = false ∧
    initial_game.game_over = false ∧ initial_game.bird.velocity_y = 0 ∧
    (on_breathing_input inhale_label 0 0 initial_game).bird.velocity_y = -8 := by
  refine ⟨rfl, rfl, rfl, rfl, ?_⟩
  norm_num [on_breathing_input, initial_game, BREATHING_FORCE]

/-- C10: `reset_game` always produces the bird at (100, 250) with zero
velocity, zero score, the game-over and active-impulse flags cleared, and
exactly three unpassed pipes at x = 800, 1100, 1400. -/
theorem reset_establishes_initial_state (now g1 g2 g3 : ℚ) (s : GameState) :
    (reset_game now g1 g2 g3 s).bird.x = 100 ∧
    (reset_game now g1 g2 g3 s).bird.y = 250 ∧
    (reset_game now g1 g2 g3 s).bird.velocity_y = 0 ∧
    (reset_game now g1 g2 g3 s).score = 0 ∧
    (reset_game now g1 g2 g3 s).game_over = false ∧
    (reset_game now g1 g2 g3 s).breathing_force_active = false ∧
    (reset_game now g1 g2 g3 s).pipes =
      [{ x := 800, gap_y := g1 }, { x := 1100, gap_y := g2 }, { x := 1400, gap_y := g3 }] := by
  refine ⟨rfl, rfl, rfl, rfl, rfl, rfl, ?_⟩
  norm_num [reset_game, generate_initial_pipes, generate_pipe_at_position,
    GAME_WIDTH, PIPE_SPAWN_DISTANCE]

/-! ### Scoring characterisation -/

/-- The per-pipe effect of `_update_score`'s loop body. -/
def mark_passed (bx : ℚ) (p : Pipe) : Pipe :=
  if !p.passed && decide (p.x + p.width < bx) then { p with passed := true } else p

/-- Whether `_update_score`'s loop increments the score for pipe `p`. -/
def newly_passed (bx : ℚ) (p : Pipe) : Bool :=
  !p.passed && decide (p.x + p.width < bx)

lemma score_pipes_eq (bx : ℚ) (l : List Pipe) :
    score_pipes bx l = (l.map (mark_passed bx), (l.filter (newly_passed bx)).length) := by
  induction l with
  | nil => rfl
  | cons p rest ih =>
    unfold score_pipes
    rw [ih, List.map_cons, List.filter_cons]
    simp only [newly_passed, mark_passed]
    by_cases h : (!p.passed && decide (p.x + p.width < bx)) = true
    · simp [h]
    · simp [h]

lemma mark_passed_mark_passed (bx : ℚ) (p : Pipe) :
    mark_passed bx (mark_passed bx p) = mark_passed bx p := by
  unfold mark_passed
  by_cases h : (!p.passed && decide (p.x + p.width < bx)) = true
  · simp [h]
  · simp [h]

lemma newly_passed_mark_passed (bx : ℚ) (p : Pipe) :
    newly_passed bx (mark_passed bx p) = false := by
  unfold newly_passed mark_passed
  by_cases h : (!p.passed && decide (p.x + p.width < bx)) = true
  · simp [h]
  · simp [h]

lemma update_score_score_eq (t : GameState) :
    (update_score t).score = t.score + (t.pipes.filter (newly_passed t.bird.x)).length := by
  unfold update_score
  rw [score_pipes_eq]

lemma update_score_pipes_eq (t : GameState) :
    (update_score t).pipes = t.pipes.map (mark_passed t.bird.x) := by
  unfold update_score
  rw [score_pipes_eq]

/-- C4: within a session the score never decreases across a tick, and
`_update_score` adds exactly one point per unpassed pipe whose right edge
is strictly left of the bird, marking each such pipe `passed`; running the
scoring step again changes nothing (the `passed` flag makes the increment
happen exactly once per pipe). -/
theorem score_monotone_and_exactly_once (now gap : ℚ) (s : GameState) :
    s.score ≤ (update_game now gap s).score ∧
    (update_score s).score = s.score + (s.pipes.filter (newly_passed s.bird.x)).length ∧
    (update_score s).pipes = s.pipes.map (mark_passed s.bird.x) ∧
    update_score (update_score s) = update_score s := by
  refine ⟨?_, update_score_score_eq s, update_score_pipes_eq s, ?_⟩
  · unfold update_game
    rw [update_score_score_eq, check_collisions_score, update_pipes_score,
      update_bird_physics_score]
    exact Nat.le_add_right _ _
  · have hmap : (s.pipes.map (mark_passed s.bird.x)).map (mark_passed s.bird.x) =
        s.pipes.map (mark_passed s.bird.x) := by
      rw [List.map_map]
      exact List.map_congr_left fun a _ => by
        simp only [Function.comp_apply, mark_passed_mark_passed]
    have hfil : (s.pipes.map (mark_passed s.bird.x)).filter (newly_passed s.bird.x) = [] := by
      refine List.filter_eq_nil_iff.mpr ?_
      intro a ha
      obtain ⟨b, _, rfl⟩ := List.mem_map.mp ha
      simp [newly_passed_mark_passed]
    unfold update_score
    rw [score_pipes_eq, score_pipes_eq]
    simp only []
    simp [hmap, hfil]

lemma on_breathing_input_inhale (v t : ℚ) (s : GameState)
    (hgo : s.game_over = false) (hp : s.is_paused = false) :
    on_breathing_input inhale_label v t s =
      { s with current_breathing := inhale_label,
               bird := { s.bird with
                 velocity_y := max BREATHING_FORCE (s.bird.velocity_y + BREATHING_FORCE) },
               breathing_force_active := true,
               breathing_force_timer := t } := by
  unfold on_breathing_input
  simp [hgo, hp]

lemma on_breathing_input_exhale (v t : ℚ) (s : GameState)
    (hgo : s.game_over = false) (hp : s.is_paused = false) :
    on_breathing_input exhale_label v t s =
      { s with current_breathing := exhale_label,
               bird := { s.bird with
                 velocity_y := min EXHALE_FORCE (s.bird.velocity_y + EXHALE_FORCE) },
               breathing_force_active := true,
               breathing_force_timer := t } := by
  unfold on_breathing_input
  simp [hgo, hp, exhale_label, inhale_label]

/-- C5: an inhale sets the velocity to
`max BREATHING_FORCE (velocity + BREATHING_FORCE)` and an exhale to
`min EXHALE_FORCE (velocity + EXHALE_FORCE)`; hence repeated
same-direction inputs never push the velocity past the single force
magnitude, and in particular two inhales from rest followed by one
gravity tick leave the velocity at `-7.5`, not `-15.5`. -/
theorem breathing_impulse_rule (s : GameState) (v t1 t2 t3 gap : ℚ)
    (hgo : s.game_over = false) (hp : s.is_paused = false) :
    (on_breathing_input inhale_label v t1 s).bird.velocity_y =
      max BREATHING_FORCE (s.bird.velocity_y + BREATHING_FORCE) ∧
    (on_breathing_input exhale_label v t1 s).bird.velocity_y =
      min EXHALE_FORCE (s.bird.velocity_y + EXHALE_FORCE) ∧
    BREATHING_FORCE ≤ (on_breathing_input inhale_label v t1 s).bird.velocity_y ∧
    (on_breathing_input exhale_label v t1 s).bird.velocity_y ≤ EXHALE_FORCE ∧
    (s.bird.velocity_y = 0 → s.bird.y = 250 → s.gravity = 1/2 → s.bird.radius = 20 →
      (update_game t3 gap (on_breathing_input inhale_label v t2
          (on_breathing_input inhale_label v t1 s))).bird.velocity_y = -15/2) := by
  have h1 := on_breathing_input_inhale v t1 s hgo hp
  have h2 := on_breathing_input_exhale v t1 s hgo hp
  refine ⟨by rw [h1], by rw [h2], ?_, ?_, ?_⟩
  · rw [h1]; exact le_max_left _ _
  · rw [h2]; exact min_le_left _ _
  · intro hv hy hg hr
    rw [h1, on_breathing_input_inhale v t2 _ (by simp [hgo]) (by simp [hp]),
      update_game_bird, update_bird_physics_bird]
    simp only [hv, hy, hg, hr]
    norm_num [max_def, min_def, GAME_HEIGHT, MAX_VELOCITY, BREATHING_FORCE]

/-- C5 witness: the rule instantiated at the freshly constructed game. -/
theorem breathing_impulse_rule_witness :
    (on_breathing_input inhale_label 0 1 initial_game).bird.velocity_y =
      max BREATHING_FORCE (initial_game.bird.velocity_y + BREATHING_FORCE) ∧
    (on_breathing_input exhale_label 0 1 initial_game).bird.velocity_y =
      min EXHALE_FORCE (initial_game.bird.velocity_y + EXHALE_FORCE) ∧
    BREATHING_FORCE ≤ (on_breathing_input inhale_label 0 1 initial_game).bird.velocity_y ∧
    (on_breathing_input exhale_label 0 1 initial_game).bird.velocity_y ≤ EXHALE_FORCE ∧
    (initial_game.bird.velocity_y = 0 → initial_game.bird.y = 250 →
      initial_game.gravity = 1/2 → initial_game.bird.radius = 20 →
      (update_game 2 200 (on_breathing_input inhale_label 0 (21/20)
          (on_breathing_input inhale_label 0 1 initial_game))).bird.velocity_y = -15/2) :=
  breathing_impulse_rule initial_game 0 1 (21/20) 2 200 rfl rfl

lemma update_bird_physics_game_over (now : ℚ) (s : GameState)
    (hr : 2 * s.bird.radius ≤ GAME_HEIGHT) :
    (update_bird_physics now s).game_over =
      (s.game_over || decide (s.bird.y +
          max (-MAX_VELOCITY) (min MAX_VELOCITY (s.bird.velocity_y + s.gravity)) >
        GAME_HEIGHT - s.bird.radius)) := by
  simp only [update_bird_physics]
  rw [decay_impulse_bird, decay_impulse_gravity]
  by_cases h1 : s.bird.y + max (-MAX_VELOCITY) (min MAX_VELOCITY (s.bird.velocity_y + s.gravity)) <
      s.bird.radius
  · have hno : ¬ (s.bird.y + max (-MAX_VELOCITY) (min MAX_VELOCITY (s.bird.velocity_y + s.gravity)) >
        GAME_HEIGHT - s.bird.radius) := by linarith
    simp [h1, hno, decay_impulse_game_over]
  · by_cases h2 : s.bird.y + max (-MAX_VELOCITY) (min MAX_VELOCITY (s.bird.velocity_y + s.gravity)) >
        GAME_HEIGHT - s.bird.radius
    · simp [h1, h2, apply_game_over, decay_impulse_game_over]
    · simp [h1, h2, decay_impulse_game_over]

/-- C3 (amended): with the game not yet over, a tick sets GameOver iff
(a) the bird (after the physics step) is horizontally overlapping some
pipe (after the pipe step) while its vertical extent leaves the gap, or
(b) the position after the velocity update strictly exceeds the bottom
bound `GAME_HEIGHT - radius` — merely landing exactly on the bottom bound
does not end the game; hitting the top bound zeroes the velocity and
never sets GameOver. -/
theorem game_over_characterization (now gap : ℚ) (s : GameState)
    (h : s.game_over = false) (hr : 2 * s.bird.radius ≤ GAME_HEIGHT) :
    ((update_game now gap s).game_over = true ↔
      (s.bird.y + max (-MAX_VELOCITY) (min MAX_VELOCITY (s.bird.velocity_y + s.gravity)) >
          GAME_HEIGHT - s.bird.radius ∨
        ∃ p ∈ (update_pipes gap (update_bird_physics now s)).pipes,
          ((update_bird_physics now s).bird.x + (update_bird_physics now s).bird.radius > p.x ∧
            (update_bird_physics now s).bird.x - (update_bird_physics now s).bird.radius <
              p.x + p.width) ∧
          ((update_bird_physics now s).bird.y - (update_bird_physics now s).bird.radius <
              p.gap_y ∨
            (update_bird_physics now s).bird.y + (update_bird_physics now s).bird.radius >
              p.gap_y + p.gap_height))) ∧
    (s.bird.y + max (-MAX_VELOCITY) (min MAX_VELOCITY (s.bird.velocity_y + s.gravity)) <
        s.bird.radius →
      (update_bird_physics now s).bird.velocity_y = 0 ∧
        (update_bird_physics now s).game_over = false) := by
  constructor
  · have e1 : (update_game now gap s).game_over =
        ((update_bird_physics now s).game_over ||
          (update_pipes gap (update_bird_physics now s)).pipes.any
            (pipe_collides (update_bird_physics now s).bird)) := by
      unfold update_game
      rw [update_score_game_over, check_collisions_game_over, update_pipes_game_over,
        update_pipes_bird]
    rw [e1, update_bird_physics_game_over now s hr, h, Bool.false_or]
    simp only [Bool.or_eq_true, decide_eq_true_eq, List.any_eq_true, pipe_collides,
      Bool.and_eq_true]
  · intro htop
    constructor
    · rw [update_bird_physics_bird]
      simp [htop]
    · rw [update_bird_physics_game_over now s hr, h]
      have hno : ¬ (s.bird.y + max (-MAX_VELOCITY) (min MAX_VELOCITY (s.bird.velocity_y + s.gravity)) >
          GAME_HEIGHT - s.bird.radius) := by linarith
      simp [hno]

/-- A state about to plunge past the bottom bound. -/
def plunge_state : GameState :=
  { initial_game with bird := { y := 579, velocity_y := 5 } }

/-- A state that will land exactly on the bottom bound this tick. -/
def touch_state : GameState :=
  { initial_game with bird := { y := 1159/2 } }

/-- C3 witness: from y = 579 with downward velocity 5 (update lands at
584.5 > 580), the characterisation yields GameOver. -/
theorem game_over_characterization_witness :
    (update_game 0 200 plunge_state).game_over = true :=
  (game_over_characterization 0 200 plunge_state rfl
      (by norm_num [plunge_state, initial_game, GAME_HEIGHT])).1.mpr
    (Or.inl (by norm_num [plunge_state, initial_game, GAME_HEIGHT,
      MAX_VELOCITY, max_def, min_def]))

/-- C3 counterexample: from y = 579.5 with velocity 0, gravity moves the
bird to exactly `GAME_HEIGHT - radius = 580`: the body reaches the bottom
boundary, yet the tick does not set GameOver (the source tests strict
`>`), refuting the claimed "iff ... reaches the bottom boundary
y = height - radius". -/
theorem game_over_missing_at_exact_bottom_touch :
    touch_state.game_over = false ∧
    (update_game 0 200 touch_state).bird.y =
      GAME_HEIGHT - (update_game 0 200 touch_state).bird.radius ∧
    (update_game 0 200 touch_state).game_over = false := by
  refine ⟨rfl, ?_, ?_⟩
  · rw [update_game_bird, update_bird_physics_bird]
    norm_num [touch_state, initial_game, GAME_HEIGHT, MAX_VELOCITY, max_def, min_def]
  · have e1 : (update_game 0 200 touch_state).game_over =
        ((update_bird_physics 0 touch_state).game_over ||
          (update_pipes 200 (update_bird_physics 0 touch_state)).pipes.any
            (pipe_collides (update_bird_physics 0 touch_state).bird)) := by
      unfold update_game
      rw [update_score_game_over, check_collisions_game_over, update_pipes_game_over,
        update_pipes_bird]
    rw [e1, update_bird_physics_game_over 0 touch_state
      (by norm_num [touch_state, initial_game, GAME_HEIGHT])]
    have hb : (update_bird_physics 0 touch_state).bird =
        { x := 100, y := 580, velocity_y := 1/2, radius := 20 } := by
      rw [update_bird_physics_bird]
      norm_num [touch_state, initial_game, GAME_HEIGHT, MAX_VELOCITY, max_def, min_def]
    have hp : (update_pipes 200 (update_bird_physics 0 touch_state)).pipes =
        [{ x := 800, gap_y := 200 }] := by
      have hpp : (update_bird_physics 0 touch_state).pipes = [] := by
        rw [update_bird_physics_pipes]; rfl
      unfold update_pipes
      rw [hpp]
      simp [generate_pipe_at_position, GAME_WIDTH]
    rw [hp, hb]
    norm_num [touch_state, initial_game, GAME_HEIGHT, MAX_VELOCITY, max_def, min_def,
      pipe_collides]

/-! ### Detector lemmas -/

lemma detect_breathing_unchanged (it et : ℚ) (c : DetectorState) (v t : ℚ)
    (h : ¬ (target_state it et c v t ≠ c.breathing_state ∧
        t - c.last_state_change > min_state_duration)) :
    (detect_breathing it et c v t).1 = c := by
  simp only [detect_breathing]
  rw [if_neg h]

lemma detect_breathing_changed (it et : ℚ) (c : DetectorState) (v t : ℚ)
    (h : (detect_breathing it et c v t).1 ≠ c) :
    (detect_breathing it et c v t).1 = ⟨target_state it et c v t, t⟩ ∧
    target_state it et c v t ≠ c.breathing_state ∧
    c.last_state_change + min_state_duration < t := by
  by_cases hc : target_state it et c v t ≠ c.breathing_state ∧
      t - c.last_state_change > min_state_duration
  · refine ⟨?_, hc.1, by linarith [hc.2]⟩
    simp only [detect_breathing]
    rw [if_pos hc]
  · exact absurd (detect_breathing_unchanged it et c v t hc) h

lemma run_detect_chain (it et : ℚ) (inputs : List (ℚ × ℚ)) (c : DetectorState) :
    List.Chain (fun a b : String × ℚ => a.2 + min_state_duration < b.2)
      (c.breathing_state, c.last_state_change) (run_detect it et c inputs).2 := by
  induction inputs generalizing c with
  | nil => exact List.Chain.nil
  | cons i rest ih =>
    obtain ⟨v, t⟩ := i
    simp only [run_detect]
    by_cases h : (detect_breathing it et c v t).1 = c
    · rw [if_pos h, List.nil_append, h]
      exact ih c
    · rw [if_neg h, List.singleton_append]
      obtain ⟨he, _, hlt⟩ := detect_breathing_changed it et c v t h
      rw [he]
      exact List.chain_cons.mpr ⟨hlt, ih _⟩

/-- C6: for every input sequence, consecutive applied breathing-state
transitions (and the first applied transition relative to the initial
`last_state_change`) are separated by more than `min_state_duration`;
moreover a call applies a transition only when the target state differs
from the current one and more than `min_state_duration` has elapsed. -/
theorem detect_debounce (it et : ℚ) (c : DetectorState) (inputs : List (ℚ × ℚ)) :
    List.Chain (fun a b : String × ℚ => a.2 + min_state_duration < b.2)
      (c.breathing_state, c.last_state_change) (run_detect it et c inputs).2 ∧
    ∀ v t, (detect_breathing it et c v t).1 ≠ c →
      target_state it et c v t ≠ c.breathing_state ∧
      c.last_state_change + min_state_duration < t :=
  ⟨run_detect_chain it et inputs c,
    fun v t h => ⟨(detect_breathing_changed it et c v t h).2.1,
      (detect_breathing_changed it et c v t h).2.2⟩⟩

/-- C6 witness: one loud sample at t = 1 from the initial neutral state
applies an inhale transition, and the debounce facts hold concretely. -/
theorem detect_debounce_witness :
    List.Chain (fun a b : String × ℚ => a.2 + min_state_duration < b.2)
      ((⟨neutral_label, 0⟩ : DetectorState).breathing_state,
        (⟨neutral_label, 0⟩ : DetectorState).last_state_change)
      (run_detect 150 50 ⟨neutral_label, 0⟩ []).2 ∧
    (target_state 150 50 ⟨neutral_label, 0⟩ 200 1 ≠
        (⟨neutral_label, 0⟩ : DetectorState).breathing_state ∧
      (⟨neutral_label, 0⟩ : DetectorState).last_state_change + min_state_duration < 1) :=
  ⟨(detect_debounce 150 50 ⟨neutral_label, 0⟩ []).1,
    (detect_debounce 150 50 ⟨neutral_label, 0⟩ []).2 200 1 (by
      have hs : ("inhale" : String) ≠ "neutral" := by decide
      norm_num [detect_breathing, target_state, min_state_duration,
        inhale_label, neutral_label, hs])⟩

lemma detect_breathing_applied_eq (it et : ℚ) (c : DetectorState) (v t : ℚ)
    (hc : target_state it et c v t ≠ c.breathing_state ∧
        t - c.last_state_change > min_state_duration) :
    detect_breathing it et c v t =
      (⟨target_state it et c v t, t⟩,
        if target_state it et c v t = inhale_label ∨ target_state it et c v t = exhale_label
        then some (target_state it et c v t, v) else none) := by
  simp only [detect_breathing]
  rw [if_pos hc]

/-- C7: the breathing-event callback fires exactly on applied transitions
whose new state is inhale or exhale, and then with payload
`(new state, volume)`; an applied transition into neutral updates the
state but produces no callback. -/
theorem detect_callback_exact (it et : ℚ) (c : DetectorState) (v t : ℚ) :
    (∀ e, (detect_breathing it et c v t).2 = some e →
      e = ((detect_breathing it et c v t).1.breathing_state, v) ∧
      ((detect_breathing it et c v t).1.breathing_state = inhale_label ∨
        (detect_breathing it et c v t).1.breathing_state = exhale_label) ∧
      (detect_breathing it et c v t).1 ≠ c) ∧
    ((detect_breathing it et c v t).1 ≠ c →
      (detect_breathing it et c v t).1.breathing_state = neutral_label →
      (detect_breathing it et c v t).2 = none) ∧
    ((detect_breathing it et c v t).1 ≠ c →
      ((detect_breathing it et c v t).1.breathing_state = inhale_label ∨
        (detect_breathing it et c v t).1.breathing_state = exhale_label) →
      (detect_breathing it et c v t).2 =
        some ((detect_breathing it et c v t).1.breathing_state, v)) := by
  by_cases hc : target_state it et c v t ≠ c.breathing_state ∧
      t - c.last_state_change > min_state_duration
  · have he := detect_breathing_applied_eq it et c v t hc
    have hne : (detect_breathing it et c v t).1 ≠ c := by
      rw [he]
      intro heq
      exact hc.1 (congrArg DetectorState.breathing_state heq)
    by_cases hie : target_state it et c v t = inhale_label ∨
        target_state it et c v t = exhale_label
    · refine ⟨?_, ?_, ?_⟩
      · intro e hsome
        rw [he, if_pos hie] at hsome
        rw [he]
        exact ⟨(Option.some_injective _ hsome).symm, hie, by rw [← he]; exact hne⟩
      · intro _ hn
        rw [he] at hn
        have hn2 : target_state it et c v t = neutral_label := hn
        rcases hie with hie | hie
        · exact absurd (hie.symm.trans hn2) (by decide)
        · exact absurd (hie.symm.trans hn2) (by decide)
      · intro _ _
        rw [he, if_pos hie]
    · refine ⟨?_, ?_, ?_⟩
      · intro e hsome
        rw [he, if_neg hie] at hsome
        exact absurd hsome (by simp)
      · intro _ _
        rw [he, if_neg hie]
      · intro _ hie2
        rw [he] at hie2
        exact absurd hie2 hie
  · have he : (detect_breathing it et c v t).1 = c :=
      detect_breathing_unchanged it et c v t hc
    have he2 : (detect_breathing it et c v t).2 = none := by
      simp only [detect_breathing]
      rw [if_neg hc]
    refine ⟨?_, ?_, ?_⟩
    · intro e hsome
      rw [he2] at hsome
      exact absurd hsome (by simp)
    · intro hne _
      exact absurd he hne
    · intro hne _
      exact absurd he hne

/-- C7 witness: a quiet sample (volume 10 < exhale threshold 50) at t = 1
from the initial neutral state applies an exhale transition and emits the
event `(exhale, 10)`. -/
theorem detect_callback_exact_witness :
    (detect_breathing 150 50 ⟨neutral_label, 0⟩ 10 1).2 =
      some ((detect_breathing 150 50 ⟨neutral_label, 0⟩ 10 1).1.breathing_state, 10) :=
  (detect_callback_exact 150 50 ⟨neutral_label, 0⟩ 10 1).2.2
    (by
      have hs : ("exhale" : String) ≠ "neutral" := by decide
      norm_num [detect_breathing, target_state, min_state_duration,
        exhale_label, neutral_label, hs])
    (by
      have hs : ("exhale" : String) ≠ "neutral" := by decide
      right
      norm_num [detect_breathing, target_state, min_state_duration,
        exhale_label, neutral_label, hs])

/-! ### Calibration theorems -/

/-- C9: whenever calibration is computed (buffer of at least 50 samples)
but fewer than 10 finite non-negative values survive the filter, the
profile becomes the fixed fallback (baseline 100, inhale threshold 150,
exhale threshold 50) with `is_calibrated = true` — calibration never
fails outright. -/
theorem calibration_fallback_defaults (k σ : ℚ) (samples : List ℚ)
    (h50 : ¬ samples.length < 50) (h10 : (valid_of samples).length < 10) :
    auto_calibrate k samples σ = some ⟨100, 150, 50, true⟩ := by
  simp only [auto_calibrate]
  rw [if_neg h50, if_pos h10]

/-- C9 witness: 50 negative samples (a broken microphone) filter down to
nothing and yield the fallback profile. -/
theorem calibration_fallback_defaults_witness :
    auto_calibrate 1 (List.replicate 50 (-1 : ℚ)) 0 = some ⟨100, 150, 50, true⟩ :=
  calibration_fallback_defaults 1 0 (List.replicate 50 (-1 : ℚ))
    (by decide) (by decide)

lemma threshold_branch_invariant (k b s : ℚ) (p : CalibProfile) (hk : 0 < k) (hs : 0 < s)
    (hres : (if |b + s * k * (12/10) - max (b * (3/10)) (b - s * k * (8/10))| <
          max 20 (b * (4/10)) then
        some (⟨b, b + max 20 (b * (4/10)) / 2,
          max 1 (b - max 20 (b * (4/10)) / 2), true⟩ : CalibProfile)
      else some ⟨b, b + s * k * (12/10),
        max (b * (3/10)) (b - s * k * (8/10)), true⟩) = some p)
    (hb : 11 ≤ p.baseline_volume) :
    p.baseline_volume < p.inhale_threshold ∧ p.exhale_threshold < p.baseline_volume ∧
    max 20 (p.baseline_volume * (4/10)) ≤ p.inhale_threshold - p.exhale_threshold := by
  have hsk : 0 < s * k := mul_pos hs hk
  split at hres
  · injection hres with hres
    subst hres
    dsimp only at hb ⊢
    have h20 : (20:ℚ) ≤ max 20 (b * (4/10)) := le_max_left _ _
    have hmax : max 20 (b * (4/10)) ≤ 2 * b - 2 := by
      apply max_le
      · linarith
      · linarith
    have hclamp : max 1 (b - max 20 (b * (4/10)) / 2) = b - max 20 (b * (4/10)) / 2 :=
      max_eq_right (by linarith)
    refine ⟨by linarith, ?_, ?_⟩
    · rw [hclamp]; linarith
    · rw [hclamp]; linarith
  · injection hres with hres
    subst hres
    dsimp only at hb ⊢
    rename_i hge
    push_neg at hge
    have hin : b < b + s * k * (12/10) := by linarith
    have hex : max (b * (3/10)) (b - s * k * (8/10)) < b := by
      apply max_lt
      · linarith
      · linarith
    have habs : |b + s * k * (12/10) - max (b * (3/10)) (b - s * k * (8/10))| =
        b + s * k * (12/10) - max (b * (3/10)) (b - s * k * (8/10)) :=
      abs_of_pos (by linarith)
    rw [habs] at hge
    exact ⟨hin, hex, hge⟩

/-- C1 (amended): for a calibration run over a buffer with at least 10
finite non-negative values, positive sensitivity, and `σ` the (population)
standard deviation of the valid values, the resulting profile satisfies
`inhaleThreshold > baselineVolume > exhaleThreshold` and
`inhaleThreshold - exhaleThreshold ≥ max(20, 0.4·baselineVolume)`
*provided the resulting baseline is at least 11* — for smaller baselines
the recentering branch's `max(1.0, ·)` clamp on the exhale threshold can
push it above the baseline and shrink the separation below the minimum
(see the counterexample). -/
theorem calibration_invariant_amended (k σ : ℚ) (samples : List ℚ) (p : CalibProfile)
    (hk : 0 < k) (hσ0 : 0 ≤ σ) (hσ : σ ^ 2 = npVariance (valid_of samples))
    (h10 : 10 ≤ (valid_of samples).length)
    (hres : auto_calibrate k samples σ = some p)
    (hb : 11 ≤ p.baseline_volume) :
    p.baseline_volume < p.inhale_threshold ∧
    p.exhale_threshold < p.baseline_volume ∧
    max 20 (p.baseline_volume * (4/10)) ≤ p.inhale_threshold - p.exhale_threshold := by
  simp only [auto_calibrate] at hres
  by_cases h50 : samples.length < 50
  · rw [if_pos h50] at hres
    exact absurd hres (by simp)
  rw [if_neg h50] at hres
  have h10' : ¬ (valid_of samples).length < 10 := by omega
  rw [if_neg h10'] at hres
  by_cases hdeg : npMedian (valid_of samples) = 0 ∨ σ = 0
  · rw [if_pos hdeg, if_pos hdeg] at hres
    exact threshold_branch_invariant k (max 100 (npMean (valid_of samples)))
      (max 50 (max 100 (npMean (valid_of samples)) * (1/2))) p hk
      (lt_of_lt_of_le (by norm_num) (le_max_left _ _)) hres hb
  · rw [if_neg hdeg, if_neg hdeg] at hres
    push_neg at hdeg
    have hσpos : 0 < σ := lt_of_le_of_ne hσ0 (Ne.symm hdeg.2)
    exact threshold_branch_invariant k (npMedian (valid_of samples)) σ p hk hσpos hres hb

/-- 50 calibration samples: 25 silent frames then 25 quiet frames.
Median 1/2, mean 1/2, population variance 1/4 (std 1/2). -/
def cx_samples : List ℚ :=
  [0, 0, 0, 0, 0, 0, 0, 0, 0, 0, 0, 0, 0, 0, 0, 0, 0, 0, 0, 0, 0, 0, 0, 0, 0,
   1, 1, 1, 1, 1, 1, 1, 1, 1, 1, 1, 1, 1, 1, 1, 1, 1, 1, 1, 1, 1, 1, 1, 1, 1]

/-- 50 calibration samples: 25 silent frames then 25 loud frames.
Median 50, mean 50, population variance 2500 (std 50). -/
def w_samples : List ℚ :=
  [0, 0, 0, 0, 0, 0, 0, 0, 0, 0, 0, 0, 0, 0, 0, 0, 0, 0, 0, 0, 0, 0, 0, 0, 0,
   100, 100, 100, 100, 100, 100, 100, 100, 100, 100, 100, 100, 100, 100, 100, 100, 100, 100, 100, 100, 100, 100, 100, 100, 100]

lemma cx_samples_valid : valid_of cx_samples = cx_samples := by decide

lemma cx_samples_sorted : cx_samples.insertionSort (· ≤ ·) = cx_samples := by decide

lemma cx_samples_mean : npMean cx_samples = 1/2 := by
  simp only [npMean]
  norm_num [cx_samples]

lemma cx_samples_median : npMedian cx_samples = 1/2 := by
  simp only [npMedian]
  rw [cx_samples_sorted]
  norm_num [cx_samples, List.getD_cons_succ, List.getD_cons_zero]

lemma cx_samples_variance : npVariance cx_samples = 1/4 := by
  simp only [npVariance, cx_samples_mean]
  norm_num [cx_samples]

lemma w_samples_valid : valid_of w_samples = w_samples := by decide

lemma w_samples_sorted : w_samples.insertionSort (· ≤ ·) = w_samples := by decide

lemma w_samples_mean : npMean w_samples = 50 := by
  simp only [npMean]
  norm_num [w_samples]

lemma w_samples_median : npMedian w_samples = 50 := by
  simp only [npMedian]
  rw [w_samples_sorted]
  norm_num [w_samples, List.getD_cons_succ, List.getD_cons_zero]

lemma w_samples_variance : npVariance w_samples = 2500 := by
  simp only [npVariance, w_samples_mean]
  norm_num [w_samples]

lemma cx_profile : auto_calibrate 1 cx_samples (1/2) = some ⟨1/2, 21/2, 1, true⟩ := by
  simp only [auto_calibrate]
  rw [cx_samples_valid, cx_samples_median, cx_samples_mean]
  have hlen : cx_samples.length = 50 := by decide
  rw [hlen]
  norm_num [max_def, abs]

/-- C1 counterexample: 25 silent and 25 quiet samples (all finite,
non-negative; σ = 1/2 is exactly the population standard deviation of the
valid values) calibrate, with the default sensitivity 1, to baseline 1/2,
inhale threshold 21/2, exhale threshold 1: the exhale threshold exceeds
the baseline (so `baselineVolume > exhaleThreshold` fails) and the
separation 19/2 is below `max(20, 0.4·baseline) = 20`. -/
theorem calibration_invariant_cx :
    ((1:ℚ)/2) ^ 2 = npVariance (valid_of cx_samples) ∧
    (0:ℚ) ≤ 1/2 ∧
    10 ≤ (valid_of cx_samples).length ∧
    auto_calibrate 1 cx_samples (1/2) = some ⟨1/2, 21/2, 1, true⟩ ∧
    ¬ ((1:ℚ) < 1/2) ∧
    ¬ (max 20 ((1:ℚ)/2 * (4/10)) ≤ 21/2 - 1) := by
  refine ⟨?_, by norm_num, by decide, cx_profile, by norm_num, ?_⟩
  · rw [cx_samples_valid, cx_samples_variance]
    norm_num
  · norm_num [max_def]

lemma w_profile : auto_calibrate 1 w_samples 50 = some ⟨50, 110, 15, true⟩ := by
  simp only [auto_calibrate]
  rw [w_samples_valid, w_samples_median, w_samples_mean]
  have hlen : w_samples.length = 50 := by decide
  rw [hlen]
  norm_num [max_def, abs]

/-- C1 witness: 25 silent and 25 loud samples (σ = 50 is the population
standard deviation of the valid values) yield the profile
(50, 110, 15), whose baseline 50 ≥ 11, and the invariant holds there. -/
theorem calibration_invariant_amended_witness :
    (⟨50, 110, 15, true⟩ : CalibProfile).baseline_volume <
      (⟨50, 110, 15, true⟩ : CalibProfile).inhale_threshold ∧
    (⟨50, 110, 15, true⟩ : CalibProfile).exhale_threshold <
      (⟨50, 110, 15, true⟩ : CalibProfile).baseline_volume ∧
    max 20 ((⟨50, 110, 15, true⟩ : CalibProfile).baseline_volume * (4/10)) ≤
      (⟨50, 110, 15, true⟩ : CalibProfile).inhale_threshold -
        (⟨50, 110, 15, true⟩ : CalibProfile).exhale_threshold :=
  calibration_invariant_amended 1 50 w_samples ⟨50, 110, 15, true⟩
    (by norm_num) (by norm_num)
    (by rw [w_samples_valid, w_samples_variance]; norm_num)
    (by decide) w_profile (by norm_num)
